import Mathlib

/-!
Verification of the gutengrep sentence-extraction-and-filter pipeline
(`src/gutengrep.py`), shallowly embedded in Lean.

External collaborators (the `re` regex engine, the `glob` module, file
decoding, the nltk punkt tokenizer, and the bound-or-unbound module global
`args`) are modelled as components of an `Env` record; the control flow of
the script itself is translated function by function from the source.
-/

namespace Gutengrep

/-- Environment: the external collaborators of the script.
`glob` models `glob.glob`; `cacheData` models the pickle file at
`SENTENCES_CACHE` on disk (`none` = no file); `decode` models reading a
file as cp1252 (`none` = `UnicodeDecodeError`); `tokenize` models the punkt
tokenizer; `search` models `re.search regex sentence flags` as a boolean;
`argsCorrect` models the module-level global `args.correct`
(`none` = `args` unbound, i.e. `gutengrep` called without the CLI entry). -/
structure Env where
  glob : String → List String
  cacheData : Option (List String)
  decode : String → Option String
  tokenize : String → List String
  search : String → String → Nat → Bool
  argsCorrect : Option Bool

/-- Errors that abort a run: `exited msg` models `sys.exit(msg)` (exit code 1,
message on stderr); `nameError x` models an unhandled `NameError` on the
unbound name `x`. -/
inductive RunError where
  | exited (msg : String)
  | nameError (name : String)
deriving DecidableEq, Repr

/-- Observable outcome of a successful run: the corpus that was used, whether
it came from the cache, what (if anything) was written to the cache, and the
ordered list of `output(sentences, filename)` calls as (filename, sentences). -/
structure RunResult where
  corpus : List String
  usedCache : Bool
  cacheWritten : Option (List String)
  outputs : List (String × List String)
deriving DecidableEq, Repr

/-- Python truthiness of the `inspec` argument (a string or `None`):
`None` and the empty string are falsy. -/
def truthy : Option String → Bool
  | none => false
  | some s => !s.toList.isEmpty

/-- Python `str.startswith` on character lists. -/
def startswith (s pre : String) : Bool :=
  pre.toList.isPrefixOf s.toList

/-- Python `str.endswith` on character lists. -/
def endswith (s suf : String) : Bool :=
  suf.toList.isSuffixOf s.toList

/-- `load_cache(filename)`: return the pickled data if the cache file exists,
else `None`.  The file system at the fixed cache path is `Env.cacheData`;
pickling is modelled as a faithful store of the string list. -/
def load_cache (cacheFile : Option (List String)) : Option (List String) :=
  cacheFile

/-- `save_cache(filename, data)`: overwrite the cache file with the pickled
data; the result is the new file-system state at the cache path. -/
def save_cache (_cacheFile : Option (List String)) (data : List String) :
    Option (List String) :=
  some data

/-- `find_sentences_in_text(filename)`: decode the file as cp1252 and
tokenize it into sentences; on `UnicodeDecodeError` return `[]`. -/
def find_sentences_in_text (env : Env) (filename : String) : List String :=
  match env.decode filename with
  | some text => env.tokenize text
  | none => []

/-- `load_sentences_from_files(files)`: concatenation of the sentences of
each file, in file order. -/
def load_sentences_from_files (env : Env) (files : List String) : List String :=
  (files.map (find_sentences_in_text env)).flatten

/-- `find_matching_sentences(regex, sentences, flags)`: keep the sentences
for which `re.search(regex, sentence, flags)` finds a match anywhere. -/
def find_matching_sentences (re_search : String → String → Nat → Bool)
    (regex : String) (sentences : List String) (flags : Nat) : List String :=
  sentences.filter (fun sentence => re_search regex sentence flags)

/-- The double-quote character as a one-character string. -/
def dquote : String := "\x22"

/-- The single-quote character as a one-character string. -/
def squote : String := "\x27"

/-- `correct_those(sentences)`: per sentence, Python runs
step 1 (`if startswith(q) and not endswith(q): sentences[i] = sentence + q`
for the double quote then the single quote) and then step 2
(`if not startswith(q) and endswith(q): sentences[i] = q + sentence`),
where every test and every right-hand side uses the ORIGINAL `sentence`
bound by the loop, so an assignment in step 2 overwrites one made in
step 1. -/
def correct_those (sentences : List String) : List String :=
  sentences.map (fun sentence =>
    let afterStep1 :=
      if startswith sentence dquote && !endswith sentence dquote then
        sentence ++ dquote
      else if startswith sentence squote && !endswith sentence squote then
        sentence ++ squote
      else sentence
    if !startswith sentence dquote && endswith sentence dquote then
      dquote ++ sentence
    else if !startswith sentence squote && endswith sentence squote then
      squote ++ sentence
    else afterStep1)

/-- Index of the last occurrence of `c` in the list, as in Python
`str.rfind` (restricted to success). -/
def rfindIdx (c : Char) : List Char → Option Nat
  | [] => none
  | x :: xs =>
    match rfindIdx c xs with
    | some i => some (i + 1)
    | none => if x = c then some 0 else none

/-- `os.path.splitext(p)` (posix): split off the extension at the last dot,
provided the dot comes after the last path separator and the basename is not
made solely of leading dots up to it. -/
def splitext (p : String) : String × String :=
  let l := p.toList
  let fi : Nat :=
    match rfindIdx '/' l with
    | none => 0
    | some s => s + 1
  match rfindIdx '.' l with
  | none => (p, "")
  | some d =>
    if fi ≤ d && ((l.drop fi).take (d - fi)).any (fun c => c != '.') then
      ((l.take d).asString, (l.drop d).asString)
    else (p, "")

/-- `insert_thing_into_filename(thing, filename)`: insert `thing` before the
extension of the filename. -/
def insert_thing_into_filename (thing : String) (filename : String) : String :=
  let re := splitext filename
  re.1 ++ thing ++ re.2

/-- Stable insertion of a sentence into a length-sorted list: the sentence
goes before the first element of length ≥ its own, so an earlier sentence
precedes later sentences of equal length. -/
def insertByLen (a : String) : List String → List String
  | [] => [a]
  | b :: l =>
    if b.length < a.length then b :: insertByLen a l else a :: b :: l

/-- `sentences.sort(key=len)`: stable ascending sort by sentence length.
The Python list sort is stable and ascending by key; a stable ascending
sort has a uniquely determined output, here realised by stable insertion
sort. -/
def sort_by_len : List String → List String
  | [] => []
  | a :: l => insertByLen a (sort_by_len l)

/-- Name of the fixed cache path, `SENTENCES_CACHE = "sentences_cache.pkl"`. -/
def SENTENCES_CACHE : String := "sentences_cache.pkl"

/-- Lines 133–156 of `gutengrep(...)`: argument validation, glob expansion,
cache load, and fresh segmentation.  Returns the sentence list that reaches
the filter stage, whether it came from the cache, and what was saved to the
cache; or the error that aborted the run.  The local `files` is only bound
when `inspec` is truthy, so reaching `load_sentences_from_files(files)`
without it raises `NameError`. -/
def openPhase (env : Env) (inspec : Option String) (cache : Bool) :
    Except RunError (List String × Bool × Option (List String)) :=
  if !truthy inspec && !cache then
    .error (.exited "Error: inspec and/or cache arguments needed")
  else if truthy inspec && (env.glob (inspec.getD "")).isEmpty then
    .error (.exited ("No input files found matching " ++ inspec.getD ""))
  else
    let files : Option (List String) :=
      if truthy inspec then some (env.glob (inspec.getD "")) else none
    let loaded : Option (List String) :=
      if cache then load_cache env.cacheData else none
    if (loaded.getD []).isEmpty then
      match files with
      | none => .error (.nameError "files")
      | some fs =>
        let sentences := load_sentences_from_files env fs
        .ok (sentences, false, if cache then some sentences else none)
    else
      .ok (loaded.getD [], true, none)

/-- `gutengrep(regex, inspec, outfile, ignore_case, sort, cache, correct)`,
lines 130–170.  After the open phase: compute `flags`, filter with
`find_matching_sentences`, then line 161 tests the module global
`args.correct` — NOT the `correct` parameter — which raises `NameError`
when `args` is unbound; optionally correct; write `outfile`; if `sort`,
stable-sort by length and write a second file at the `-sort` derived path. -/
def gutengrep (env : Env) (regex : String) (inspec : Option String)
    (outfile : String) (ignore_case sort cache _correct : Bool) :
    Except RunError RunResult :=
  match openPhase env inspec cache with
  | .error e => .error e
  | .ok (sentences, usedCache, written) =>
    let flags : Nat := if ignore_case then 2 else 0
    let ms := find_matching_sentences env.search regex sentences flags
    match env.argsCorrect with
    | .none => .error (.nameError "args")
    | .some argsCorrect =>
      let ms := if argsCorrect then correct_those ms else ms
      if sort then
        .ok { corpus := sentences, usedCache := usedCache,
              cacheWritten := written,
              outputs := [(outfile, ms),
                          (insert_thing_into_filename "-sort" outfile,
                           sort_by_len ms)] }
      else
        .ok { corpus := sentences, usedCache := usedCache,
              cacheWritten := written,
              outputs := [(outfile, ms)] }

/-- Whether a run finished without `sys.exit` and without an unhandled
exception. -/
def runOk : Except RunError RunResult → Bool
  | .ok _ => true
  | .error _ => false

/-- Baseline concrete environment: one globbed file that decodes and
tokenizes to the single sentence `A`; no cache file on disk; every regex
search succeeds; the CLI has bound `args` with `args.correct = False`. -/
def envBase : Env :=
  { glob := fun _ => ["f1"]
    cacheData := none
    decode := fun _ => some "T"
    tokenize := fun _ => ["A"]
    search := fun _ _ _ => true
    argsCorrect := some false }

/-- Environment whose cache file holds the empty sentence list. -/
def envEmptyCacheRecord : Env := { envBase with cacheData := some [] }

/-- Environment whose cache file holds the two sentences `A`, `B`. -/
def envCacheAB : Env := { envBase with cacheData := some ["A", "B"] }

/-- Environment whose glob matches no files. -/
def envNoFiles : Env := { envBase with glob := fun _ => [] }

/-- Environment with two globbed files of which `bad.txt` fails to decode. -/
def envDecodeFail : Env :=
  { envBase with
    glob := fun _ => ["good.txt", "bad.txt"]
    decode := fun f => if f = "bad.txt" then none else some "T" }

/-- Environment with a nonempty cache file but the module global `args`
unbound (as in any direct call to `gutengrep` outside the CLI entry). -/
def envNoArgs : Env := { envBase with cacheData := some ["A"], argsCorrect := none }

end Gutengrep

namespace Gutengrep

/-- C1: for every regex engine, pattern, sentence list and flag setting, the
match set returned by `find_matching_sentences` is a sublist of the input
corpus (same relative order, no additions), and every sentence it contains
satisfies the search predicate under those flags. -/
theorem matchset_sublist_and_satisfies
    (re_search : String → String → Nat → Bool) (regex : String)
    (sentences : List String) (flags : Nat) :
    (find_matching_sentences re_search regex sentences flags).Sublist sentences ∧
    ∀ s ∈ find_matching_sentences re_search regex sentences flags,
      re_search regex s flags = true := by
  refine ⟨List.filter_sublist sentences, ?_⟩
  intro s hs
  exact (List.mem_filter.mp hs).2

/-- C1 witness: concrete instance of the matcher property. -/
theorem matchset_sublist_and_satisfies_witness :
    (find_matching_sentences (fun _ s _ => s.length ≤ 3) "p"
        ["ab", "abcd", "xyz"] 0).Sublist ["ab", "abcd", "xyz"] ∧
    ∀ s ∈ find_matching_sentences (fun _ s _ => s.length ≤ 3) "p"
        ["ab", "abcd", "xyz"] 0,
      (fun (_ : String) (s : String) (_ : Nat) => decide (s.length ≤ 3)) "p" s 0 = true :=
  matchset_sublist_and_satisfies (fun _ s _ => s.length ≤ 3) "p"
    ["ab", "abcd", "xyz"] 0

/-- C5: saving a corpus to the cache file and loading it back returns
exactly that corpus, for every prior file-system state and every corpus,
including the empty one (pickling a string list is modelled as a faithful
store). -/
theorem cache_roundtrip (fs : Option (List String)) (corpus : List String) :
    load_cache (save_cache fs corpus) = some corpus := rfl

/-- C4 counterexample: the corrector does NOT map `He said "hello` to
`He said "hello"` — the sentence does not start with a quote character, so
neither branch of `correct_those` fires and it is returned unchanged. -/
theorem correct_he_said_counterexample :
    correct_those ["He said \"hello"] ≠ ["He said \"hello\""] := by decide

/-- C4 amended: the corrector leaves `He said "hello` unchanged, because its
append rule only fires on sentences that START with the quote character. -/
theorem correct_he_said_unchanged :
    correct_those ["He said \"hello"] = ["He said \"hello"] := by decide

/-- C2 counterexample: with the cache flag set and a cache record present on
disk holding the empty sentence list, the run does NOT use the cached record:
the empty list is falsy, so the fresh file-glob/load/segment pass runs
(`usedCache = false`), the corpus is the freshly segmented `["A"]` rather
than the cached `[]`, and the fresh corpus is even re-saved to the cache. -/
theorem cache_empty_record_counterexample :
    envEmptyCacheRecord.cacheData = some [] ∧
    gutengrep envEmptyCacheRecord "r" (some "x") "o.log" false false true false =
      .ok { corpus := ["A"], usedCache := false, cacheWritten := some ["A"],
            outputs := [("o.log", ["A"])] } :=
  ⟨rfl, rfl⟩

/-- C2 amended: if the cache flag is set, the cache record exists and is a
NONEMPTY sentence list, and inspec is absent or globs to at least one file,
then the open phase returns exactly the cached record, marks the corpus as
cache-sourced (load/segment pass skipped), and writes nothing back. -/
theorem cache_hit_nonempty_bypasses (env : Env) (inspec : Option String)
    (cs : List String) (hc : env.cacheData = some cs) (hne : cs ≠ [])
    (hglob : truthy inspec = false ∨ env.glob (inspec.getD "") ≠ []) :
    openPhase env inspec true = .ok (cs, true, none) := by
  cases cs with
  | nil => exact absurd rfl hne
  | cons a l =>
    rcases hglob with hg | hg
    · simp [openPhase, hg, load_cache, hc]
    · rcases hq : truthy inspec with _ | _
      · simp [openPhase, hq, load_cache, hc]
      · simp [openPhase, hq, load_cache, hc, hg]

/-- C2 amended witness: concrete cache hit with the record `["A", "B"]`. -/
theorem cache_hit_nonempty_bypasses_witness :
    openPhase envCacheAB none true = .ok (["A", "B"], true, none) :=
  cache_hit_nonempty_bypasses envCacheAB none ["A", "B"] rfl
    (by decide) (Or.inl rfl)

/-- C3 counterexample: on a sentence where both checks fire — it starts with
a single quote and does not end with one (step 1 fires, appending a single
quote) and it ends with a double quote without starting with one (step 2
fires, prepending a double quote) — the output is only the step 2 rewrite of
the ORIGINAL sentence: it does not end with the single quote step 1
appended, so it does not contain both modifications. -/
theorem corrector_both_fire_counterexample :
    startswith "\x27abc\"" squote = true ∧
    endswith "\x27abc\"" squote = false ∧
    startswith "\x27abc\"" dquote = false ∧
    endswith "\x27abc\"" dquote = true ∧
    correct_those ["\x27abc\""] = ["\"\x27abc\""] ∧
    endswith "\"\x27abc\"" squote = false := by
  decide

/-- C3 amended: when step 1 and step 2 both fire on a sentence (starts with
a single quote, does not end with it; ends with a double quote, does not
start with it), the step 2 assignment overwrites the step 1 assignment: the
output element is the double quote prepended to the ORIGINAL sentence, and
the quote appended by step 1 is discarded. -/
theorem corrector_step2_overwrites_step1 (s : String) (pre post : List String)
    (h1 : startswith s squote = true) (h2 : endswith s squote = false)
    (h3 : startswith s dquote = false) (h4 : endswith s dquote = true) :
    correct_those (pre ++ s :: post) =
      correct_those pre ++ (dquote ++ s) :: correct_those post := by
  simp [correct_those, h1, h2, h3, h4]

/-- C3 amended witness: concrete instance of the overwrite behaviour. -/
theorem corrector_step2_overwrites_step1_witness :
    correct_those ([] ++ "\x27abc\"" :: []) =
      correct_those [] ++ (dquote ++ "\x27abc\"") :: correct_those [] :=
  corrector_step2_overwrites_step1 "\x27abc\"" [] [] rfl rfl rfl rfl

/-- C6: when inspec is truthy but globs to zero files, the run terminates at
once with `sys.exit` carrying a human-readable message (exit code 1), so no
`RunResult` — and in particular no output file — is produced; this happens
in the open phase, before any per-file work, unlike a per-file decode
failure which is handled inside the loader. -/
theorem glob_zero_files_fatal (env : Env) (regex : String)
    (inspec : Option String) (outfile : String) (ic sort cache c : Bool)
    (hins : truthy inspec = true) (hglob : env.glob (inspec.getD "") = []) :
    gutengrep env regex inspec outfile ic sort cache c =
      .error (.exited ("No input files found matching " ++ inspec.getD "")) := by
  simp [gutengrep, openPhase, hins, hglob]

/-- C6 witness: a concrete inspec whose glob matches nothing. -/
theorem glob_zero_files_fatal_witness :
    gutengrep envNoFiles "r" (some "x") "o.log" false false false false =
      .error (.exited ("No input files found matching " ++ (some "x").getD "")) :=
  glob_zero_files_fatal envNoFiles "r" (some "x") "o.log" false false false false
    rfl rfl

/-- C7: a file whose bytes fail to decode under cp1252 contributes zero
sentences (`find_sentences_in_text` returns `[]`); removing it from the file
list does not change the loaded corpus, so the run continues with the
remaining files; and a run over a glob containing such a file still
completes successfully (`runOk`), so the decode failure is never fatal. -/
theorem decode_failure_nonfatal (env : Env) (f : String)
    (hdec : env.decode f = none) :
    find_sentences_in_text env f = [] ∧
    (∀ pre post, load_sentences_from_files env (pre ++ f :: post) =
        load_sentences_from_files env (pre ++ post)) ∧
    (∀ regex inspec outfile ic sort c b,
        truthy inspec = true → env.glob (inspec.getD "") ≠ [] →
        env.argsCorrect = some b →
        runOk (gutengrep env regex inspec outfile ic sort false c) = true) := by
  refine ⟨?_, ?_, ?_⟩
  · simp [find_sentences_in_text, hdec]
  · intro pre post
    simp [load_sentences_from_files, find_sentences_in_text, hdec]
  · intro regex inspec outfile ic sort c b hins hglob hargs
    rcases hfs : env.glob (inspec.getD "") with _ | ⟨g, gs⟩
    · exact absurd hfs hglob
    · cases sort <;>
        simp [gutengrep, openPhase, hins, hfs, hargs, runOk, load_cache]

/-- C7 witness: concrete run where `bad.txt` fails to decode. -/
theorem decode_failure_nonfatal_witness :
    find_sentences_in_text envDecodeFail "bad.txt" = [] ∧
    load_sentences_from_files envDecodeFail (["good.txt"] ++ "bad.txt" :: []) =
      load_sentences_from_files envDecodeFail (["good.txt"] ++ []) ∧
    runOk (gutengrep envDecodeFail "r" (some "x") "o.log"
      false false false false) = true := by
  have h := decode_failure_nonfatal envDecodeFail "bad.txt" rfl
  exact ⟨h.1, h.2.1 ["good.txt"] [],
    h.2.2 "r" (some "x") "o.log" false false false false rfl (by decide) rfl⟩

/-- C8: when the sorted second pass is requested (and quote correction is
off), the run writes two artifacts: the match set at the output path, and at
the path obtained by inserting `-sort` before the extension, the match set
stably sorted by ascending length; concretely, `output.log` derives
`output-sort.log`, and sentences of lengths [5,3,5,1] sort to lengths
[1,3,5,5] with the two length-5 sentences in their original relative
order. -/
theorem sorted_second_pass (env : Env) (regex : String)
    (inspec : Option String) (outfile : String) (ic cache c : Bool)
    (po : List String × Bool × Option (List String))
    (hopen : openPhase env inspec cache = .ok po)
    (hargs : env.argsCorrect = some false) :
    gutengrep env regex inspec outfile ic true cache c =
      .ok { corpus := po.1, usedCache := po.2.1, cacheWritten := po.2.2,
            outputs := [(outfile,
                         find_matching_sentences env.search regex po.1
                           (if ic then 2 else 0)),
                        (insert_thing_into_filename "-sort" outfile,
                         sort_by_len (find_matching_sentences env.search regex
                           po.1 (if ic then 2 else 0)))] } ∧
    insert_thing_into_filename "-sort" "output.log" = "output-sort.log" ∧
    sort_by_len ["aaaaa", "bbb", "ccccc", "d"] =
      ["d", "bbb", "aaaaa", "ccccc"] := by
  obtain ⟨s, u, w⟩ := po
  exact ⟨by simp [gutengrep, hopen, hargs], by decide, by decide⟩

/-- C8 witness: concrete sorted run over the cached corpus `["A", "B"]`. -/
theorem sorted_second_pass_witness :
    gutengrep envCacheAB "r" none "o.log" false true true false =
      .ok { corpus := (["A", "B"], true,
                       (none : Option (List String))).1,
            usedCache := (["A", "B"], true,
                          (none : Option (List String))).2.1,
            cacheWritten := (["A", "B"], true,
                             (none : Option (List String))).2.2,
            outputs := [("o.log",
                         find_matching_sentences envCacheAB.search "r"
                           (["A", "B"], true,
                            (none : Option (List String))).1
                           (if false then 2 else 0)),
                        (insert_thing_into_filename "-sort" "o.log",
                         sort_by_len (find_matching_sentences envCacheAB.search
                           "r" (["A", "B"], true,
                                (none : Option (List String))).1
                           (if false then 2 else 0)))] } ∧
    insert_thing_into_filename "-sort" "output.log" = "output-sort.log" ∧
    sort_by_len ["aaaaa", "bbb", "ccccc", "d"] =
      ["d", "bbb", "aaaaa", "ccccc"] :=
  sorted_second_pass envCacheAB "r" none "o.log" false true false
    (["A", "B"], true, none) rfl rfl

/-- C9: with the cache flag set, no inspec, and the cache either absent from
disk or deserializing to the empty sentence list, the run is NOT stopped by
the argument-validation configuration error (its precondition is met: cache
is enabled); it falls through to the fresh-segmentation branch where the
local `files` was never bound, and dies with an unhandled `NameError` on
`files`. -/
theorem cache_only_no_inspec_nameerror (env : Env) (regex : String)
    (outfile : String) (ic sort c : Bool)
    (h : env.cacheData = none ∨ env.cacheData = some []) :
    gutengrep env regex none outfile ic sort true c =
      .error (.nameError "files") := by
  rcases h with h | h <;> simp [gutengrep, openPhase, truthy, load_cache, h]

/-- C9 witness: concrete cache-only run with no cache file on disk. -/
theorem cache_only_no_inspec_nameerror_witness :
    gutengrep envBase "r" none "o.log" false false true false =
      .error (.nameError "files") :=
  cache_only_no_inspec_nameerror envBase "r" "o.log" false false false
    (Or.inl rfl)

/-- C10: the `correct` parameter of `gutengrep` is never consulted — two
runs differing only in it are identical — because line 161 reads the module
global `args.correct` instead; hence every direct call that gets past the
open phase in a process where the CLI never bound `args` raises an unhandled
`NameError` on `args` (after matching), whatever was passed for `correct`. -/
theorem correct_param_never_consulted (env : Env) (regex : String)
    (inspec : Option String) (outfile : String) (ic sort cache c1 c2 : Bool)
    (po : List String × Bool × Option (List String))
    (hargs : env.argsCorrect = none)
    (hopen : openPhase env inspec cache = .ok po) :
    gutengrep env regex inspec outfile ic sort cache c1 =
      gutengrep env regex inspec outfile ic sort cache c2 ∧
    gutengrep env regex inspec outfile ic sort cache c1 =
      .error (.nameError "args") := by
  exact ⟨rfl, by simp [gutengrep, hopen, hargs]⟩

/-- C10 witness: concrete direct call with `args` unbound; passing `true`
and passing `false` for `correct` give the same crash. -/
theorem correct_param_never_consulted_witness :
    gutengrep envNoArgs "r" none "o.log" false false true true =
      gutengrep envNoArgs "r" none "o.log" false false true false ∧
    gutengrep envNoArgs "r" none "o.log" false false true true =
      .error (.nameError "args") :=
  correct_param_never_consulted envNoArgs "r" none "o.log" false false true
    true false (["A"], true, none) rfl rfl

end Gutengrep
